import Mathlib

/-!
Shallow embedding of the double-pendulum physics core
(`src/app/physics/pendulum_physics.py`): the `PendulumParams` value
bundle, the `PathTracer` trail buffer, the `Pendulum` body with its
velocity-Verlet-style integrator, drag state machine and energy
accounting, and the `PendulumSystem` ensemble.  Python floats are
modelled as real numbers, Python `%` on floats (with positive divisor)
as `x - y * ⌊x / y⌋`, and Python `int()` as truncation toward zero.
-/

open Real

noncomputable section

/-- Python float modulo `x % y`: for `y > 0` the result lies in `[0, y)`. -/
def pymod (x y : ℝ) : ℝ := x - y * ⌊x / y⌋

/-- Python `int()` applied to a float: truncation toward zero. -/
def pyInt (x : ℝ) : ℤ := if 0 ≤ x then ⌊x⌋ else -⌊-x⌋

/-- Python `math.atan2(y, x)`: the argument of the point `(x, y)`,
in `(-π, π]`. -/
def atan2 (y x : ℝ) : ℝ := Complex.arg ⟨x, y⟩

/-- Source `PendulumParams.__init__`: the immutable parameter bundle. -/
structure PendulumParams where
  offset_x : ℝ
  offset_y : ℝ
  length1 : ℝ
  length2 : ℝ
  mass1 : ℝ
  mass2 : ℝ
  angle1 : ℝ
  angle2 : ℝ
  velocity1 : ℝ
  velocity2 : ℝ
  path_color : ℕ × ℕ × ℕ
  path_duration : ℝ
  show_wire : Bool

/-- Source `PendulumParams.clone`: a field-by-field copy. -/
def PendulumParams.clone (p : PendulumParams) : PendulumParams :=
  ⟨p.offset_x, p.offset_y, p.length1, p.length2, p.mass1, p.mass2,
   p.angle1, p.angle2, p.velocity1, p.velocity2, p.path_color,
   p.path_duration, p.show_wire⟩

/-- Source `PathTracer`: bounded buffer of recent bob positions (a Python
`deque(maxlen=max_points)` holding `(x, y)` pairs, oldest first). -/
structure PathTracer where
  points : List (ℝ × ℝ)
  max_points : ℕ
  color : ℕ × ℕ × ℕ
  visible : Bool

/-- Source `PathTracer.__init__` with its default arguments. -/
def PathTracer.new : PathTracer :=
  { points := [], max_points := 500, color := (0, 128, 255), visible := true }

/-- Source `PathTracer.initialize`: rebuild with a fresh empty deque of the
given capacity and the given color. -/
def PathTracer.setup (t : PathTracer) (max_points : ℕ) (color : ℕ × ℕ × ℕ) :
    PathTracer :=
  { t with max_points := max_points, points := [], color := color }

/-- Source `PathTracer.add_point`: append only if visible; a full deque evicts
its oldest element. -/
def PathTracer.add_point (t : PathTracer) (x y : ℝ) : PathTracer :=
  if t.visible then
    let l := t.points ++ [(x, y)]
    { t with points := l.drop (l.length - t.max_points) }
  else t

/-- Source `PathTracer.clear`. -/
def PathTracer.clear (t : PathTracer) : PathTracer := { t with points := [] }

/-- Source `PathTracer.set_duration(seconds, fps=60)`: recompute
`max_points = int(seconds * fps)`, rebuild the deque, and copy over the
existing points whose index is below the new maximum (oldest first). -/
def PathTracer.set_duration (t : PathTracer) (seconds : ℝ) (fps : ℝ) :
    PathTracer :=
  let m := (pyInt (seconds * fps)).toNat
  { t with max_points := m, points := t.points.take m }

/-- Source `Pendulum`: a double-pendulum body.  `acceleration1/2` are the
(never rewritten) fields set in `__init__`. -/
@[ext] structure Pendulum where
  id : ℕ
  path_tracer : PathTracer
  initial_state : Option PendulumParams
  offset_x : ℝ
  offset_y : ℝ
  length1 : ℝ
  length2 : ℝ
  mass1 : ℝ
  mass2 : ℝ
  angle1 : ℝ
  angle2 : ℝ
  velocity1 : ℝ
  velocity2 : ℝ
  acceleration1 : ℝ
  acceleration2 : ℝ
  x1 : ℝ
  y1 : ℝ
  x2 : ℝ
  y2 : ℝ
  show_wire : Bool
  dragging : Bool
  drag_joint : ℤ

/-- Source `Pendulum.__init__(pendulum_id)`. -/
def Pendulum.new (pendulum_id : ℕ) : Pendulum :=
  { id := pendulum_id, path_tracer := PathTracer.new, initial_state := none,
    offset_x := 0, offset_y := 0, length1 := 120, length2 := 120,
    mass1 := 10, mass2 := 10, angle1 := π / 4, angle2 := π / 4,
    velocity1 := 0, velocity2 := 0, acceleration1 := 0, acceleration2 := 0,
    x1 := 0, y1 := 0, x2 := 0, y2 := 0,
    show_wire := true, dragging := false, drag_joint := 0 }

/-- Source `Pendulum._calculate_cartesian_positions`. -/
def Pendulum.calculate_cartesian_positions (p : Pendulum) : Pendulum :=
  let x1 := p.length1 * Real.sin p.angle1
  let y1 := p.length1 * Real.cos p.angle1
  { p with x1 := x1, y1 := y1,
           x2 := x1 + p.length2 * Real.sin p.angle2,
           y2 := y1 + p.length2 * Real.cos p.angle2 }

/-- Source `Pendulum.initialize(params)`: store a clone for reset, copy the
physical fields, reinitialize the path tracer with capacity
`int(path_duration * 60)`, and recompute Cartesian positions. -/
def Pendulum.setup (p : Pendulum) (params : PendulumParams) : Pendulum :=
  Pendulum.calculate_cartesian_positions
    { p with
      initial_state := some params.clone,
      offset_x := params.offset_x, offset_y := params.offset_y,
      length1 := params.length1, length2 := params.length2,
      mass1 := params.mass1, mass2 := params.mass2,
      angle1 := params.angle1, angle2 := params.angle2,
      velocity1 := params.velocity1, velocity2 := params.velocity2,
      show_wire := params.show_wire,
      path_tracer :=
        p.path_tracer.setup (pyInt (params.path_duration * 60)).toNat
          params.path_color }

/-- Source `Pendulum._calculate_acceleration1(gravity)`. -/
def Pendulum.calculate_acceleration1 (p : Pendulum) (gravity : ℝ) : ℝ :=
  let g := gravity
  let m1 := p.mass1
  let m2 := p.mass2
  let l1 := p.length1
  let l2 := p.length2
  let a1 := p.angle1
  let a2 := p.angle2
  let v1 := p.velocity1
  let v2 := p.velocity2
  let num1 := -g * (2 * m1 + m2) * Real.sin a1
  let num2 := -m2 * g * Real.sin (a1 - 2 * a2)
  let num3 := -2 * Real.sin (a1 - a2) * m2 *
    (v2 ^ 2 * l2 + v1 ^ 2 * l1 * Real.cos (a1 - a2))
  let den := l1 * (2 * m1 + m2 - m2 * Real.cos (2 * a1 - 2 * a2))
  (num1 + num2 + num3) / den

/-- Source `Pendulum._calculate_acceleration2(gravity)`. -/
def Pendulum.calculate_acceleration2 (p : Pendulum) (gravity : ℝ) : ℝ :=
  let g := gravity
  let m1 := p.mass1
  let m2 := p.mass2
  let l1 := p.length1
  let l2 := p.length2
  let a1 := p.angle1
  let a2 := p.angle2
  let v1 := p.velocity1
  let v2 := p.velocity2
  let num1 := 2 * Real.sin (a1 - a2)
  let num2 := v1 ^ 2 * l1 * (m1 + m2) + g * (m1 + m2) * Real.cos a1
  let num3 := v2 ^ 2 * l2 * m2 * Real.cos (a1 - a2)
  let den := l2 * (2 * m1 + m2 - m2 * Real.cos (2 * a1 - 2 * a2))
  num1 * (num2 + num3) / den

/-- Source `Pendulum._velocity_verlet_step(dt, gravity)`. -/
def Pendulum.velocity_verlet_step (p : Pendulum) (dt gravity : ℝ) : Pendulum :=
  let accel1_old := p.calculate_acceleration1 gravity
  let accel2_old := p.calculate_acceleration2 gravity
  let p1 : Pendulum :=
    { p with velocity1 := p.velocity1 + 0.5 * accel1_old * dt,
             velocity2 := p.velocity2 + 0.5 * accel2_old * dt }
  let p2 : Pendulum :=
    { p1 with angle1 := p1.angle1 + p1.velocity1 * dt,
              angle2 := p1.angle2 + p1.velocity2 * dt }
  let p3 : Pendulum :=
    { p2 with angle1 := pymod (p2.angle1 + π) (2 * π) - π,
              angle2 := pymod (p2.angle2 + π) (2 * π) - π }
  let accel1_new := p3.calculate_acceleration1 gravity
  let accel2_new := p3.calculate_acceleration2 gravity
  { p3 with velocity1 := p3.velocity1 + 0.5 * accel1_new * dt,
            velocity2 := p3.velocity2 + 0.5 * accel2_new * dt }

/-- Source `Pendulum.update(dt, gravity)`: no-op while dragging, otherwise one
Verlet step followed by Cartesian recomputation. -/
def Pendulum.update (p : Pendulum) (dt gravity : ℝ) : Pendulum :=
  if p.dragging then p
  else Pendulum.calculate_cartesian_positions (p.velocity_verlet_step dt gravity)

/-- Source `Pendulum.reset`: reinitialize from the stored initial parameters
(`if self.initial_state:` — `None` is falsy, a params object truthy). -/
def Pendulum.reset (p : Pendulum) : Pendulum :=
  match p.initial_state with
  | some s => Pendulum.setup p s
  | none => p

/-- Source `Pendulum.set_length(rod, value)`: `rod == 1` writes `length1`, any
other value writes `length2`; Cartesian positions are then recomputed. -/
def Pendulum.set_length (p : Pendulum) (rod : ℤ) (value : ℝ) : Pendulum :=
  Pendulum.calculate_cartesian_positions
    (if rod = 1 then { p with length1 := value } else { p with length2 := value })

/-- Source `Pendulum.set_mass(bob, value)`. -/
def Pendulum.set_mass (p : Pendulum) (bob : ℤ) (value : ℝ) : Pendulum :=
  if bob = 1 then { p with mass1 := value } else { p with mass2 := value }

/-- Source `Pendulum.set_angle(joint, value)` followed by Cartesian
recomputation. -/
def Pendulum.set_angle (p : Pendulum) (joint : ℤ) (value : ℝ) : Pendulum :=
  Pendulum.calculate_cartesian_positions
    (if joint = 1 then { p with angle1 := value } else { p with angle2 := value })

/-- Source `Pendulum.set_velocity(joint, value)`. -/
def Pendulum.set_velocity (p : Pendulum) (joint : ℤ) (value : ℝ) : Pendulum :=
  if joint = 1 then { p with velocity1 := value } else { p with velocity2 := value }

/-- Source `Pendulum.toggle_wire_visibility`. -/
def Pendulum.toggle_wire_visibility (p : Pendulum) : Pendulum :=
  { p with show_wire := !p.show_wire }

/-- Source `Pendulum.start_drag(position, screen_center)`: returns the reported
success flag together with the post-call state. -/
def Pendulum.start_drag (p : Pendulum) (position screen_center : ℝ × ℝ) :
    Bool × Pendulum :=
  let anchor_x := screen_center.1 + p.offset_x
  let anchor_y := screen_center.2 + p.offset_y
  let screen_x1 := anchor_x + p.x1
  let screen_y1 := anchor_y + p.y1
  let screen_x2 := anchor_x + p.x2
  let screen_y2 := anchor_y + p.y2
  let dx2 := position.1 - screen_x2
  let dy2 := position.2 - screen_y2
  let dist2 := Real.sqrt (dx2 * dx2 + dy2 * dy2)
  if dist2 ≤ max 10 p.mass2 then
    (true, { p with dragging := true, drag_joint := 2 })
  else
    let dx1 := position.1 - screen_x1
    let dy1 := position.2 - screen_y1
    let dist1 := Real.sqrt (dx1 * dx1 + dy1 * dy1)
    if dist1 ≤ max 10 p.mass1 then
      (true, { p with dragging := true, drag_joint := 1 })
    else (false, p)

/-- Source `Pendulum.update_drag(position, screen_center)`. -/
def Pendulum.update_drag (p : Pendulum) (position screen_center : ℝ × ℝ) :
    Pendulum :=
  if p.dragging = false then p
  else
    let anchor_x := screen_center.1 + p.offset_x
    let anchor_y := screen_center.2 + p.offset_y
    let rel_x := position.1 - anchor_x
    let rel_y := position.2 - anchor_y
    let q : Pendulum :=
      if p.drag_joint = 1 then
        let p1 : Pendulum := { p with angle1 := atan2 rel_y rel_x }
        let new_length := Real.sqrt (rel_x * rel_x + rel_y * rel_y)
        let p2 : Pendulum :=
          if new_length > 10 then { p1 with length1 := new_length } else p1
        { p2 with velocity1 := 0, velocity2 := 0 }
      else if p.drag_joint = 2 then
        let pc := p.calculate_cartesian_positions
        let rel_to_first_x := rel_x - pc.x1
        let rel_to_first_y := rel_y - pc.y1
        let p1 : Pendulum :=
          { pc with angle2 := atan2 rel_to_first_y rel_to_first_x }
        let new_length :=
          Real.sqrt (rel_to_first_x * rel_to_first_x +
            rel_to_first_y * rel_to_first_y)
        let p2 : Pendulum :=
          if new_length > 10 then { p1 with length2 := new_length } else p1
        { p2 with velocity1 := 0, velocity2 := 0 }
      else p
    q.calculate_cartesian_positions

/-- Source `Pendulum.end_drag`. -/
def Pendulum.end_drag (p : Pendulum) : Pendulum :=
  { p with dragging := false, drag_joint := 0,
           path_tracer := p.path_tracer.clear }

/-- Source `Pendulum.calculate_energy(gravity)`: the `(kinetic, potential,
total)` triple; the method only reads state. -/
def Pendulum.calculate_energy (p : Pendulum) (gravity : ℝ) : ℝ × ℝ × ℝ :=
  let g := gravity
  let m1 := p.mass1
  let m2 := p.mass2
  let l1 := p.length1
  let l2 := p.length2
  let a1 := p.angle1
  let a2 := p.angle2
  let v1 := p.velocity1
  let v2 := p.velocity2
  let y1 := -l1 * Real.cos a1
  let y2 := y1 - l2 * Real.cos a2
  let vx1 := l1 * v1 * Real.cos a1
  let vy1 := l1 * v1 * Real.sin a1
  let vx2 := vx1 + l2 * v2 * Real.cos a2
  let vy2 := vy1 + l2 * v2 * Real.sin a2
  let ke1 := 0.5 * m1 * (vx1 ^ 2 + vy1 ^ 2)
  let ke2 := 0.5 * m2 * (vx2 ^ 2 + vy2 ^ 2)
  let kinetic_energy := ke1 + ke2
  let pe1 := m1 * g * (y1 + l1)
  let pe2 := m2 * g * (y2 + l1 + l2)
  let potential_energy := pe1 + pe2
  (kinetic_energy, potential_energy, kinetic_energy + potential_energy)

/-- Source `PendulumSystem`: insertion-ordered map from id to body (a Python
dict, modelled as an association list with unique keys), the selected
body reference, and the id counter. -/
structure PendulumSystem where
  pendulums : List (ℕ × Pendulum)
  selected_pendulum : Option Pendulum
  next_pendulum_id : ℕ

/-- Source `PendulumSystem.__init__`. -/
def PendulumSystem.new : PendulumSystem :=
  { pendulums := [], selected_pendulum := none, next_pendulum_id := 0 }

/-- Source `PendulumSystem.create_pendulum(params)`: allocate the next id,
construct and initialize a body, insert it, select it, return it. -/
def PendulumSystem.create_pendulum (s : PendulumSystem)
    (params : PendulumParams) : PendulumSystem × Pendulum :=
  let pendulum_id := s.next_pendulum_id
  let pendulum := Pendulum.setup (Pendulum.new pendulum_id) params
  ({ pendulums := s.pendulums ++ [(pendulum_id, pendulum)],
     selected_pendulum := some pendulum,
     next_pendulum_id := pendulum_id + 1 }, pendulum)

/-- Source `PendulumSystem.remove_pendulum(pendulum_id)`: if the id is present,
clear the selection when it points at that id, delete the entry and
return `True`; otherwise return `False`. -/
def PendulumSystem.remove_pendulum (s : PendulumSystem) (pendulum_id : ℕ) :
    PendulumSystem × Bool :=
  if (s.pendulums.lookup pendulum_id).isSome then
    let sel : Option Pendulum :=
      match s.selected_pendulum with
      | some q => if q.id = pendulum_id then none else some q
      | none => none
    ({ s with
       pendulums := s.pendulums.filter (fun e => !(e.1 == pendulum_id)),
       selected_pendulum := sel }, true)
  else (s, false)

/-- Source `PendulumSystem.select_pendulum(pendulum_id)`. -/
def PendulumSystem.select_pendulum (s : PendulumSystem) (pendulum_id : ℕ) :
    PendulumSystem × Option Pendulum :=
  match s.pendulums.lookup pendulum_id with
  | some p => ({ s with selected_pendulum := some p }, some p)
  | none => (s, none)

/-- Source `PendulumSystem.get_pendulum_by_id(pendulum_id)`: `dict.get`. -/
def PendulumSystem.get_pendulum_by_id (s : PendulumSystem)
    (pendulum_id : ℕ) : Option Pendulum :=
  s.pendulums.lookup pendulum_id

/-- Source `PendulumSystem.clear`. -/
def PendulumSystem.clear (s : PendulumSystem) : PendulumSystem :=
  { s with pendulums := [], selected_pendulum := none }

/-- The ensemble's structural invariant: every stored body carries its
own key as `id`, every key is below the id counter (freshness), and the
selected body, when present, is the live entry of the map at its id. -/
def SystemInv (s : PendulumSystem) : Prop :=
  (∀ e ∈ s.pendulums, e.2.id = e.1) ∧
  (∀ e ∈ s.pendulums, e.1 < s.next_pendulum_id) ∧
  (∀ q, s.selected_pendulum = some q → s.pendulums.lookup q.id = some q)

/-! Specification-side definitions, used only for refinement statements:
these follow the wording of the specification, to be compared against
the definitions above, which are translated from the source. -/

/-- The closed-form `accel1` exactly as the specification words it. -/
def specAccel1 (g m1 m2 l1 l2 a1 a2 v1 v2 : ℝ) : ℝ :=
  (-g * (2 * m1 + m2) * Real.sin a1 - m2 * g * Real.sin (a1 - 2 * a2)
      - 2 * Real.sin (a1 - a2) * m2 *
        (v2 ^ 2 * l2 + v1 ^ 2 * l1 * Real.cos (a1 - a2)))
    / (l1 * (2 * m1 + m2 - m2 * Real.cos (2 * a1 - 2 * a2)))

/-- The closed-form `accel2` exactly as the specification words it. -/
def specAccel2 (g m1 m2 l1 l2 a1 a2 v1 v2 : ℝ) : ℝ :=
  2 * Real.sin (a1 - a2) *
      (v1 ^ 2 * l1 * (m1 + m2) + g * (m1 + m2) * Real.cos a1
        + v2 ^ 2 * l2 * m2 * Real.cos (a1 - a2))
    / (l2 * (2 * m1 + m2 - m2 * Real.cos (2 * a1 - 2 * a2)))

/-- One integration step of the angular state `(a1, a2, v1, v2)` as the
specification describes it: old accelerations, half-step velocities,
full-step angles with modulo normalization, new accelerations from the
new angles and half-stepped velocities, completed velocities. -/
def specVerlet (g dt m1 m2 l1 l2 a1 a2 v1 v2 : ℝ) : ℝ × ℝ × ℝ × ℝ :=
  let acc1_old := specAccel1 g m1 m2 l1 l2 a1 a2 v1 v2
  let acc2_old := specAccel2 g m1 m2 l1 l2 a1 a2 v1 v2
  let v1h := v1 + 0.5 * acc1_old * dt
  let v2h := v2 + 0.5 * acc2_old * dt
  let a1n := pymod (a1 + v1h * dt + π) (2 * π) - π
  let a2n := pymod (a2 + v2h * dt + π) (2 * π) - π
  let acc1_new := specAccel1 g m1 m2 l1 l2 a1n a2n v1h v2h
  let acc2_new := specAccel2 g m1 m2 l1 l2 a1n a2n v1h v2h
  (a1n, a2n, v1h + 0.5 * acc1_new * dt, v2h + 0.5 * acc2_new * dt)

/-- The whole specified update: the scheme on the angular state, then
Cartesian offsets recomputed from the new angles and the lengths. -/
def specUpdate (p : Pendulum) (dt g : ℝ) : Pendulum :=
  let st := specVerlet g dt p.mass1 p.mass2 p.length1 p.length2
    p.angle1 p.angle2 p.velocity1 p.velocity2
  { p with
    angle1 := st.1, angle2 := st.2.1,
    velocity1 := st.2.2.1, velocity2 := st.2.2.2,
    x1 := p.length1 * Real.sin st.1,
    y1 := p.length1 * Real.cos st.1,
    x2 := p.length1 * Real.sin st.1 + p.length2 * Real.sin st.2.1,
    y2 := p.length1 * Real.cos st.1 + p.length2 * Real.cos st.2.1 }

/-- The state mutations a body is subject to between creation and reset:
physics steps, the four setters, the wire toggle and the drag calls. -/
inductive Mutation where
  | step (dt gravity : ℝ)
  | setLen (rod : ℤ) (value : ℝ)
  | setMass (bob : ℤ) (value : ℝ)
  | setAngle (joint : ℤ) (value : ℝ)
  | setVel (joint : ℤ) (value : ℝ)
  | startDrag (position screen_center : ℝ × ℝ)
  | updateDrag (position screen_center : ℝ × ℝ)
  | endDrag
  | toggleWire

/-- Interpretation of one mutation on a body. -/
def applyMutation : Mutation → Pendulum → Pendulum
  | .step dt g, p => p.update dt g
  | .setLen r v, p => p.set_length r v
  | .setMass b v, p => p.set_mass b v
  | .setAngle j v, p => p.set_angle j v
  | .setVel j v, p => p.set_velocity j v
  | .startDrag pos c, p => (p.start_drag pos c).2
  | .updateDrag pos c, p => p.update_drag pos c
  | .endDrag, p => p.end_drag
  | .toggleWire, p => p.toggle_wire_visibility

/-- A whole sequence of mutations, applied left to right. -/
def applyMutations : List Mutation → Pendulum → Pendulum
  | [], p => p
  | m :: ms, p => applyMutations ms (applyMutation m p)

/-! Concrete example states used by counterexamples and witnesses. -/

/-- A freshly constructed body (`Pendulum(0)`, before `initialize`). -/
def cp0 : Pendulum := Pendulum.new 0

/-- A body at the straight-down rest configuration with the first joint
spinning at angular velocity `π`. -/
def cpA : Pendulum :=
  { Pendulum.new 0 with angle1 := 0, angle2 := 0, velocity1 := π, velocity2 := 0 }

/-- A body currently being dragged. -/
def cpD : Pendulum := { Pendulum.new 0 with dragging := true, drag_joint := 1 }

/-- A trail buffer holding ten samples. -/
def t10 : PathTracer :=
  { points := [(0, 0), (1, 1), (2, 2), (3, 3), (4, 4), (5, 5), (6, 6),
               (7, 7), (8, 8), (9, 9)],
    max_points := 500, color := (0, 128, 255), visible := true }

end

/-! Helper lemmas. -/

theorem PendulumParams.clone_id (p : PendulumParams) : p.clone = p := rfl

theorem pymod_nonneg (x y : ℝ) (hy : 0 < y) : 0 ≤ pymod x y := by
  rw [pymod, sub_nonneg, mul_comm]
  exact (le_div_iff₀ hy).mp (Int.floor_le (x / y))

theorem pymod_lt (x y : ℝ) (hy : 0 < y) : pymod x y < y := by
  rw [pymod, sub_lt_iff_lt_add]
  have h := (div_lt_iff₀ hy).mp (Int.lt_floor_add_one (x / y))
  nlinarith [h]

/-- The code's angle normalization lands in `[-π, π)`. -/
theorem normalize_mem_Ico (x : ℝ) :
    -π ≤ pymod x (2 * π) - π ∧ pymod x (2 * π) - π < π := by
  have h2 : (0 : ℝ) < 2 * π := by positivity
  constructor
  · linarith [pymod_nonneg x (2 * π) h2]
  · linarith [pymod_lt x (2 * π) h2]

/-- The source acceleration formula agrees with the specification's. -/
theorem accel1_spec (p : Pendulum) (g : ℝ) :
    p.calculate_acceleration1 g =
      specAccel1 g p.mass1 p.mass2 p.length1 p.length2
        p.angle1 p.angle2 p.velocity1 p.velocity2 := by
  simp only [Pendulum.calculate_acceleration1, specAccel1]
  congr 1
  ring

/-- The source acceleration formula agrees with the specification's. -/
theorem accel2_spec (p : Pendulum) (g : ℝ) :
    p.calculate_acceleration2 g =
      specAccel2 g p.mass1 p.mass2 p.length1 p.length2
        p.angle1 p.angle2 p.velocity1 p.velocity2 := by
  simp only [Pendulum.calculate_acceleration2, specAccel2]

/-! Claim theorems. -/

/-- C4: while a body is being dragged, `update(dt, gravity)` leaves the
whole state — angles, velocities, offsets, lengths, masses and the path
trace — unchanged, for every `dt` and `gravity`. -/
theorem C4_drag_suspends_update (p : Pendulum) (dt gravity : ℝ)
    (h : p.dragging = true) : p.update dt gravity = p := by
  simp [Pendulum.update, h]

theorem C4_drag_suspends_update_witness :
    cpD.dragging = true ∧ cpD.update 1 (981 / 100) = cpD :=
  ⟨rfl, C4_drag_suspends_update cpD 1 (981 / 100) rfl⟩

/-- C3 counterexample: the setters do not reject non-positive values —
`set_length(1, -1)` and `set_mass(1, -1)` on a fresh body overwrite the
prior valid values instead of leaving them in place. -/
theorem C3_counterexample :
    (cp0.set_length 1 (-1)).length1 ≠ cp0.length1 ∧
    (cp0.set_mass 1 (-1)).mass1 ≠ cp0.mass1 := by
  constructor <;>
    simp [cp0, Pendulum.new, Pendulum.set_length, Pendulum.set_mass,
      Pendulum.calculate_cartesian_positions] <;>
    norm_num

/-- C3 amended: `set_length` and `set_mass` store the given value
unconditionally — also when it is non-positive; no validation, no
rejection and no clamping happens. -/
theorem C3_setters_store_unconditionally (p : Pendulum) (v : ℝ) :
    (p.set_length 1 v).length1 = v ∧ (p.set_length 2 v).length2 = v ∧
    (p.set_mass 1 v).mass1 = v ∧ (p.set_mass 2 v).mass2 = v := by
  refine ⟨?_, ?_, ?_, ?_⟩ <;>
    simp [Pendulum.set_length, Pendulum.set_mass,
      Pendulum.calculate_cartesian_positions]

/-- C10: every index other than `1` — including `0`, `3` and negative
values — selects the second element in all four setters, and the first
element is untouched; no index is rejected. -/
theorem C10_nonunit_index_means_second (p : Pendulum) (j : ℤ) (v : ℝ)
    (h : j ≠ 1) :
    (p.set_length j v).length2 = v ∧ (p.set_length j v).length1 = p.length1 ∧
    (p.set_mass j v).mass2 = v ∧ (p.set_mass j v).mass1 = p.mass1 ∧
    (p.set_angle j v).angle2 = v ∧ (p.set_angle j v).angle1 = p.angle1 ∧
    (p.set_velocity j v).velocity2 = v ∧
    (p.set_velocity j v).velocity1 = p.velocity1 := by
  refine ⟨?_, ?_, ?_, ?_, ?_, ?_, ?_, ?_⟩ <;>
    simp [Pendulum.set_length, Pendulum.set_mass, Pendulum.set_angle,
      Pendulum.set_velocity, Pendulum.calculate_cartesian_positions, h]

theorem C10_nonunit_index_means_second_witness :
    (0 : ℤ) ≠ 1 ∧
    ((cp0.set_length 0 (-5)).length2 = -5 ∧
      (cp0.set_length 0 (-5)).length1 = cp0.length1 ∧
      (cp0.set_mass 0 (-5)).mass2 = -5 ∧
      (cp0.set_mass 0 (-5)).mass1 = cp0.mass1 ∧
      (cp0.set_angle 0 (-5)).angle2 = -5 ∧
      (cp0.set_angle 0 (-5)).angle1 = cp0.angle1 ∧
      (cp0.set_velocity 0 (-5)).velocity2 = -5 ∧
      (cp0.set_velocity 0 (-5)).velocity1 = cp0.velocity1) :=
  ⟨by decide, C10_nonunit_index_means_second cp0 0 (-5) (by decide)⟩

/-- C7: `calculate_energy(g)` returns exactly the `(kinetic, potential,
total)` triple of the specification's up-positive formulas, with
`total = kinetic + potential`; the call reads but never writes state. -/
theorem C7_energy_formulas (p : Pendulum) (g : ℝ) :
    p.calculate_energy g =
      (0.5 * p.mass1 * ((p.length1 * p.velocity1 * Real.cos p.angle1) ^ 2 +
          (p.length1 * p.velocity1 * Real.sin p.angle1) ^ 2) +
        0.5 * p.mass2 *
          ((p.length1 * p.velocity1 * Real.cos p.angle1 +
              p.length2 * p.velocity2 * Real.cos p.angle2) ^ 2 +
            (p.length1 * p.velocity1 * Real.sin p.angle1 +
              p.length2 * p.velocity2 * Real.sin p.angle2) ^ 2),
       p.mass1 * g * (-p.length1 * Real.cos p.angle1 + p.length1) +
         p.mass2 * g * (-p.length1 * Real.cos p.angle1 -
           p.length2 * Real.cos p.angle2 + p.length1 + p.length2),
       (p.calculate_energy g).1 + (p.calculate_energy g).2.1) := by
  simp only [Pendulum.calculate_energy]

theorem pymod_pi_pi : pymod (π + π) (2 * π) = 0 := by
  have h : (π + π) / (2 * π) = 1 := by
    rw [← two_mul]
    exact div_self (by positivity)
  have h1 : ⌊(π + π) / (2 * π)⌋ = 1 := by rw [h]; exact Int.floor_one
  rw [pymod, h1]
  push_cast
  ring

/-- C2 counterexample: from angles `(0, 0)` with `velocity1 = π`, a
single `update(dt = 1)` puts `angle1` exactly at `-π`, which is outside
the claimed interval `(-π, π]`. -/
theorem C2_counterexample :
    (cpA.update 1 (981 / 100)).angle1 = -π ∧
    ¬(-π < (cpA.update 1 (981 / 100)).angle1) := by
  have e : (cpA.update 1 (981 / 100)).angle1 = -π := by
    simp [Pendulum.update, cpA, Pendulum.new,
      Pendulum.velocity_verlet_step, Pendulum.calculate_acceleration1,
      Pendulum.calculate_acceleration2,
      Pendulum.calculate_cartesian_positions, pymod_pi_pi]
  exact ⟨e, by rw [e]; simp⟩

/-- C2 amended: after a non-dragged `update(dt, gravity)` both angles
lie in the half-open interval `[-π, π)` — at least `-π` and strictly
below `π` (not the claimed `(-π, π]`). -/
theorem C2_angles_normalized (p : Pendulum) (dt gravity : ℝ)
    (h : p.dragging = false) :
    (-π ≤ (p.update dt gravity).angle1 ∧ (p.update dt gravity).angle1 < π) ∧
    (-π ≤ (p.update dt gravity).angle2 ∧ (p.update dt gravity).angle2 < π) := by
  simp only [Pendulum.update, h, Bool.false_eq_true, if_false,
    Pendulum.velocity_verlet_step, Pendulum.calculate_cartesian_positions]
  exact ⟨normalize_mem_Ico _, normalize_mem_Ico _⟩

theorem C2_angles_normalized_witness :
    cpA.dragging = false ∧
    ((-π ≤ (cpA.update 1 (981 / 100)).angle1 ∧
        (cpA.update 1 (981 / 100)).angle1 < π) ∧
      (-π ≤ (cpA.update 1 (981 / 100)).angle2 ∧
        (cpA.update 1 (981 / 100)).angle2 < π)) :=
  ⟨rfl, C2_angles_normalized cpA 1 (981 / 100) rfl⟩

/-- C5: `set_duration(seconds, sample_rate)` sets the capacity to
`floor(seconds * sample_rate)` and keeps exactly the oldest
`min(capacity, old_length)` samples, in their original order. -/
theorem C5_set_duration_truncates_oldest_first (t : PathTracer)
    (seconds fps : ℝ) (h : 0 ≤ seconds * fps) :
    ((t.set_duration seconds fps).max_points : ℤ) = ⌊seconds * fps⌋ ∧
    (t.set_duration seconds fps).points =
      t.points.take ⌊seconds * fps⌋.toNat ∧
    (t.set_duration seconds fps).points.length =
      min ⌊seconds * fps⌋.toNat t.points.length := by
  have hp : pyInt (seconds * fps) = ⌊seconds * fps⌋ := by
    simp [pyInt, h]
  refine ⟨?_, ?_, ?_⟩ <;>
    simp [PathTracer.set_duration, hp,
      Int.toNat_of_nonneg (Int.floor_nonneg.mpr h), List.length_take]

theorem C5_set_duration_truncates_oldest_first_witness :
    (0 : ℝ) ≤ 4 * 1 ∧
    (((t10.set_duration 4 1).max_points : ℤ) = ⌊(4 : ℝ) * 1⌋ ∧
      (t10.set_duration 4 1).points = t10.points.take ⌊(4 : ℝ) * 1⌋.toNat ∧
      (t10.set_duration 4 1).points.length =
        min ⌊(4 : ℝ) * 1⌋.toNat t10.points.length) :=
  ⟨by norm_num, C5_set_duration_truncates_oldest_first t10 4 1 (by norm_num)⟩

/-- C1: a non-dragged `update(dt, gravity)` advances the angular state
by exactly the specified scheme — old accelerations from the Lagrangian
closed forms, half-step velocities, full-step angles with modulo
normalization, new accelerations from the new angles and half-stepped
velocities, completed velocities — and finally recomputes the Cartesian
offsets from the new angles and the lengths. -/
theorem C1_update_follows_spec_scheme (p : Pendulum) (dt gravity : ℝ)
    (h : p.dragging = false) :
    p.update dt gravity = specUpdate p dt gravity := by
  simp only [Pendulum.update, h, Bool.false_eq_true, if_false,
    Pendulum.velocity_verlet_step, Pendulum.calculate_cartesian_positions,
    specUpdate, specVerlet, accel1_spec, accel2_spec]

theorem C1_update_follows_spec_scheme_witness :
    cpA.dragging = false ∧
    cpA.update 1 (981 / 100) = specUpdate cpA 1 (981 / 100) :=
  ⟨rfl, C1_update_follows_spec_scheme cpA 1 (981 / 100) rfl⟩

/-- C6: `start_drag` tests bob 2 first — a pointer within
`max(10, mass2)` of bob 2's screen position (anchor plus Cartesian
offset) transitions to dragging joint 2 and reports success, regardless
of bob 1; only when bob 2 misses is bob 1 tested with radius
`max(10, mass1)`; and when neither bob is hit the call reports failure
and leaves the state unchanged. -/
theorem C6_start_drag_hit_testing (p : Pendulum) (pos c : ℝ × ℝ) :
    (Real.sqrt ((pos.1 - (c.1 + p.offset_x + p.x2)) *
          (pos.1 - (c.1 + p.offset_x + p.x2)) +
        (pos.2 - (c.2 + p.offset_y + p.y2)) *
          (pos.2 - (c.2 + p.offset_y + p.y2))) ≤ max 10 p.mass2 →
      p.start_drag pos c = (true, { p with dragging := true, drag_joint := 2 })) ∧
    (¬(Real.sqrt ((pos.1 - (c.1 + p.offset_x + p.x2)) *
          (pos.1 - (c.1 + p.offset_x + p.x2)) +
        (pos.2 - (c.2 + p.offset_y + p.y2)) *
          (pos.2 - (c.2 + p.offset_y + p.y2))) ≤ max 10 p.mass2) →
      Real.sqrt ((pos.1 - (c.1 + p.offset_x + p.x1)) *
          (pos.1 - (c.1 + p.offset_x + p.x1)) +
        (pos.2 - (c.2 + p.offset_y + p.y1)) *
          (pos.2 - (c.2 + p.offset_y + p.y1))) ≤ max 10 p.mass1 →
      p.start_drag pos c = (true, { p with dragging := true, drag_joint := 1 })) ∧
    (¬(Real.sqrt ((pos.1 - (c.1 + p.offset_x + p.x2)) *
          (pos.1 - (c.1 + p.offset_x + p.x2)) +
        (pos.2 - (c.2 + p.offset_y + p.y2)) *
          (pos.2 - (c.2 + p.offset_y + p.y2))) ≤ max 10 p.mass2) →
      ¬(Real.sqrt ((pos.1 - (c.1 + p.offset_x + p.x1)) *
          (pos.1 - (c.1 + p.offset_x + p.x1)) +
        (pos.2 - (c.2 + p.offset_y + p.y1)) *
          (pos.2 - (c.2 + p.offset_y + p.y1))) ≤ max 10 p.mass1) →
      p.start_drag pos c = (false, p)) := by
  refine ⟨?_, ?_, ?_⟩
  · intro h2
    simp only [Pendulum.start_drag]
    rw [if_pos h2]
  · intro h2 h1
    simp only [Pendulum.start_drag]
    rw [if_neg h2, if_pos h1]
  · intro h2 h1
    simp only [Pendulum.start_drag]
    rw [if_neg h2, if_neg h1]

theorem applyMutation_initial_state (m : Mutation) (p : Pendulum) :
    (applyMutation m p).initial_state = p.initial_state := by
  cases m <;>
    simp only [applyMutation, Pendulum.update, Pendulum.set_length,
      Pendulum.set_mass, Pendulum.set_angle, Pendulum.set_velocity,
      Pendulum.start_drag, Pendulum.update_drag, Pendulum.end_drag,
      Pendulum.toggle_wire_visibility, Pendulum.velocity_verlet_step,
      Pendulum.calculate_cartesian_positions, PathTracer.clear] <;>
    split_ifs <;> rfl

theorem applyMutations_initial_state (ms : List Mutation) (p : Pendulum) :
    (applyMutations ms p).initial_state = p.initial_state := by
  induction ms generalizing p with
  | nil => rfl
  | cons m ms ih =>
      rw [applyMutations, ih, applyMutation_initial_state]

/-- C9: creating a body from a parameter bundle, applying any sequence
of mutations (steps, setters, drags, toggles), then calling `reset`
restores exactly the angles, angular velocities, rod lengths, masses and
(recomputed, consistent) Cartesian offsets that a fresh creation from
the same bundle produces. -/
theorem C9_reset_restores_creation_state (params : PendulumParams)
    (pid : ℕ) (ms : List Mutation) :
    let q := Pendulum.setup (Pendulum.new pid) params
    let r := (applyMutations ms q).reset
    r.angle1 = q.angle1 ∧ r.angle2 = q.angle2 ∧
    r.velocity1 = q.velocity1 ∧ r.velocity2 = q.velocity2 ∧
    r.length1 = q.length1 ∧ r.length2 = q.length2 ∧
    r.mass1 = q.mass1 ∧ r.mass2 = q.mass2 ∧
    r.x1 = q.x1 ∧ r.y1 = q.y1 ∧ r.x2 = q.x2 ∧ r.y2 = q.y2 := by
  intro q r
  have hinit : (applyMutations ms q).initial_state = some params := by
    rw [applyMutations_initial_state]
    rfl
  have hr : r = Pendulum.setup (applyMutations ms q) params := by
    show (applyMutations ms q).reset = _
    simp only [Pendulum.reset, hinit]
  rw [hr]
  refine ⟨?_, ?_, ?_, ?_, ?_, ?_, ?_, ?_, ?_, ?_, ?_, ?_⟩ <;>
    simp only [q, Pendulum.setup, Pendulum.calculate_cartesian_positions]

theorem lookup_cons_self {β : Type} (k : ℕ) (v : β) (t : List (ℕ × β)) :
    ((k, v) :: t).lookup k = some v := by
  simp [List.lookup]

theorem lookup_cons_ne {β : Type} (a k : ℕ) (v : β) (t : List (ℕ × β))
    (h : a ≠ k) : ((k, v) :: t).lookup a = t.lookup a := by
  have hb : (a == k) = false := beq_eq_false_iff_ne.mpr h
  simp [List.lookup, hb]

theorem lookup_filter_self {β : Type} (l : List (ℕ × β)) (k : ℕ) :
    (l.filter (fun e => !(e.1 == k))).lookup k = none := by
  induction l with
  | nil => rfl
  | cons e t ih =>
      obtain ⟨k', v⟩ := e
      rw [List.filter_cons]
      by_cases h : k' = k
      · rw [if_neg (by simp [h])]
        exact ih
      · rw [if_pos (by simp [h]), lookup_cons_ne _ _ _ _ fun hk => h hk.symm]
        exact ih

theorem lookup_filter_other {β : Type} (l : List (ℕ × β)) (k a : ℕ)
    (h : a ≠ k) :
    (l.filter (fun e => !(e.1 == k))).lookup a = l.lookup a := by
  induction l with
  | nil => rfl
  | cons e t ih =>
      obtain ⟨k', v⟩ := e
      rw [List.filter_cons]
      by_cases hk : k' = k
      · rw [if_neg (by simp [hk]), ih,
          lookup_cons_ne _ _ _ _ (by rw [hk]; exact h)]
      · rw [if_pos (by simp [hk])]
        by_cases hak : a = k'
        · subst hak
          rw [lookup_cons_self, lookup_cons_self]
        · rw [lookup_cons_ne _ _ _ _ hak, lookup_cons_ne _ _ _ _ hak, ih]

theorem lookup_append_single {β : Type} (l : List (ℕ × β)) (k : ℕ) (v : β)
    (h : l.lookup k = none) : (l ++ [(k, v)]).lookup k = some v := by
  induction l with
  | nil => exact lookup_cons_self k v []
  | cons e t ih =>
      obtain ⟨k', v'⟩ := e
      by_cases hk : k = k'
      · subst hk
        rw [lookup_cons_self] at h
        cases h
      · rw [lookup_cons_ne _ _ _ _ hk] at h
        rw [List.cons_append, lookup_cons_ne _ _ _ _ hk]
        exact ih h

theorem lookup_none_of_lt {β : Type} (l : List (ℕ × β)) (n : ℕ)
    (h : ∀ e ∈ l, e.1 < n) : l.lookup n = none := by
  induction l with
  | nil => rfl
  | cons e t ih =>
      obtain ⟨k, v⟩ := e
      have h1 : k < n := h (k, v) (by simp)
      rw [lookup_cons_ne _ _ _ _ (by omega)]
      exact ih fun e he => h e (by simp [he])

theorem mem_of_lookup {β : Type} (l : List (ℕ × β)) (a : ℕ) (b : β)
    (h : l.lookup a = some b) : (a, b) ∈ l := by
  induction l with
  | nil => cases h
  | cons e t ih =>
      obtain ⟨k, v⟩ := e
      by_cases hk : a = k
      · subst hk
        rw [lookup_cons_self] at h
        obtain rfl : v = b := by injection h
        simp
      · rw [lookup_cons_ne _ _ _ _ hk] at h
        simp [ih h]

/-- C8: unknown ids make `remove_pendulum` return `False`, and
`select_pendulum` / `get_pendulum_by_id` return `None`, all leaving the
ensemble untouched; a present id makes `remove_pendulum` return `True`,
delete the body and clear the selection when it pointed at the removed
body; and the invariant — the selected body, when present, is the live
entry of the id map — is preserved by the ensemble operations. -/
theorem C8_ensemble_lookup_and_selection (s : PendulumSystem) (pid : ℕ) :
    (s.pendulums.lookup pid = none →
      s.remove_pendulum pid = (s, false) ∧
      s.select_pendulum pid = (s, none) ∧
      s.get_pendulum_by_id pid = none) ∧
    ((s.pendulums.lookup pid).isSome = true →
      (s.remove_pendulum pid).2 = true ∧
      (s.remove_pendulum pid).1.pendulums.lookup pid = none ∧
      (∀ q, s.selected_pendulum = some q → q.id = pid →
        (s.remove_pendulum pid).1.selected_pendulum = none)) ∧
    (SystemInv s →
      SystemInv (s.remove_pendulum pid).1 ∧
      SystemInv (s.select_pendulum pid).1 ∧
      (∀ ps, SystemInv (s.create_pendulum ps).1) ∧
      SystemInv s.clear) := by
  refine ⟨?_, ?_, ?_⟩
  · intro h
    have h' : ¬(s.pendulums.lookup pid).isSome = true := by
      rw [h]
      exact Bool.false_ne_true
    refine ⟨?_, ?_, h⟩
    · rw [PendulumSystem.remove_pendulum, if_neg h']
    · simp only [PendulumSystem.select_pendulum, h]
  · intro hx
    refine ⟨?_, ?_, ?_⟩
    · rw [PendulumSystem.remove_pendulum, if_pos hx]
    · rw [PendulumSystem.remove_pendulum, if_pos hx]
      exact lookup_filter_self s.pendulums pid
    · intro q hq hqid
      rw [PendulumSystem.remove_pendulum, if_pos hx, hq]
      simp only [hqid, if_true]
  · rintro ⟨hkeys, hfresh, hsel⟩
    refine ⟨?_, ?_, ?_, ?_⟩
    · by_cases hx : (s.pendulums.lookup pid).isSome = true
      · rw [PendulumSystem.remove_pendulum, if_pos hx]
        refine ⟨?_, ?_, ?_⟩
        · intro e he
          exact hkeys e (List.mem_filter.mp he).1
        · intro e he
          exact hfresh e (List.mem_filter.mp he).1
        · intro q hq
          rcases hselC : s.selected_pendulum with _ | q'
          · rw [hselC] at hq
            cases hq
          · rw [hselC] at hq
            by_cases hid : q'.id = pid
            · simp only [hid, if_true] at hq
              cases hq
            · simp only [hid, if_false] at hq
              obtain rfl : q' = q := by injection hq
              rw [lookup_filter_other _ _ _ hid]
              exact hsel q' hselC
      · rw [PendulumSystem.remove_pendulum, if_neg hx]
        exact ⟨hkeys, hfresh, hsel⟩
    · rcases hl : s.pendulums.lookup pid with _ | p
      · simp only [PendulumSystem.select_pendulum, hl]
        exact ⟨hkeys, hfresh, hsel⟩
      · simp only [PendulumSystem.select_pendulum, hl]
        refine ⟨hkeys, hfresh, ?_⟩
        intro q hq
        obtain rfl : p = q := by injection hq
        have hm := mem_of_lookup _ _ _ hl
        have hid : p.id = pid := hkeys (pid, p) hm
        rw [hid]
        exact hl
    · intro ps
      simp only [PendulumSystem.create_pendulum]
      refine ⟨?_, ?_, ?_⟩
      · intro e he
        rcases List.mem_append.mp he with hm | hm
        · exact hkeys e hm
        · obtain rfl := List.mem_singleton.mp hm
          rfl
      · intro e he
        rcases List.mem_append.mp he with hm | hm
        · exact Nat.lt_succ_of_lt (hfresh e hm)
        · obtain rfl := List.mem_singleton.mp hm
          exact Nat.lt_succ_self _
      · intro q hq
        obtain rfl : Pendulum.setup (Pendulum.new s.next_pendulum_id) ps = q := by
          injection hq
        exact lookup_append_single _ _ _
          (lookup_none_of_lt _ _ hfresh)
    · refine ⟨?_, ?_, ?_⟩
      · intro e he
        cases he
      · intro e he
        cases he
      · intro q hq
        cases hq

theorem C8_ensemble_lookup_and_selection_witness :
    PendulumSystem.new.pendulums.lookup 7 = none ∧
    (PendulumSystem.new.remove_pendulum 7 = (PendulumSystem.new, false) ∧
      PendulumSystem.new.select_pendulum 7 = (PendulumSystem.new, none) ∧
      PendulumSystem.new.get_pendulum_by_id 7 = none) :=
  ⟨rfl, (C8_ensemble_lookup_and_selection PendulumSystem.new 7).1 rfl⟩

theorem C6_start_drag_hit_testing_witness :
    Real.sqrt ((((0 : ℝ), (0 : ℝ)).1 - (((0 : ℝ), (0 : ℝ)).1 + cp0.offset_x + cp0.x2)) *
        (((0 : ℝ), (0 : ℝ)).1 - (((0 : ℝ), (0 : ℝ)).1 + cp0.offset_x + cp0.x2)) +
      (((0 : ℝ), (0 : ℝ)).2 - (((0 : ℝ), (0 : ℝ)).2 + cp0.offset_y + cp0.y2)) *
        (((0 : ℝ), (0 : ℝ)).2 - (((0 : ℝ), (0 : ℝ)).2 + cp0.offset_y + cp0.y2))) ≤
      max 10 cp0.mass2 ∧
    cp0.start_drag (0, 0) (0, 0) =
      (true, { cp0 with dragging := true, drag_joint := 2 }) := by
  have hhit : Real.sqrt ((((0 : ℝ), (0 : ℝ)).1 - (((0 : ℝ), (0 : ℝ)).1 + cp0.offset_x + cp0.x2)) *
      (((0 : ℝ), (0 : ℝ)).1 - (((0 : ℝ), (0 : ℝ)).1 + cp0.offset_x + cp0.x2)) +
    (((0 : ℝ), (0 : ℝ)).2 - (((0 : ℝ), (0 : ℝ)).2 + cp0.offset_y + cp0.y2)) *
      (((0 : ℝ), (0 : ℝ)).2 - (((0 : ℝ), (0 : ℝ)).2 + cp0.offset_y + cp0.y2))) ≤
      max 10 cp0.mass2 := by
    simp [cp0, Pendulum.new]
  exact ⟨hhit, (C6_start_drag_hit_testing cp0 (0, 0) (0, 0)).1 hhit⟩
